import Mathlib

/-!
Verification of the quotation bot (`app.py`).

The Python source wires a Flask webhook to an AI-based field extractor
named parse_command_with_ai, an HTML renderer and e-mail delivery.  The
deterministic parts are embedded shallowly:

* JSON scalar values that the decoded AI reply may hold for a field are
  modelled by `PyVal`; Python truthiness is `PyVal.truthy`.
* the decoding step json.loads of the AI reply is modelled by the
  `Option ParsedContext` input of `parse_command_with_ai`: `none` stands
  for a reply that fails to decode, whose exception the surrounding
  try/except converts into a `None` result.
* Python float(...) and int(...) on field values are `pyFloat` and
  `pyInt`; numbers are modelled as exact rationals and string parsing
  covers plain decimal literals.
* the two-decimal comma-grouped currency rendering of the source's
  f-strings is `formatINR`.
* the GET and POST branches of the handle_webhook route are
  `handle_webhook_get` and `handle_webhook_post`; the external
  collaborators of the POST branch (the extractor, HTML rendering,
  e-mail delivery) enter as explicit function parameters.
-/

/-- A Python number as an exact scaled decimal: the value is m divided
by 10 to the e.  JSON numbers are decimal literals and are represented
exactly; the binary rounding of the Python float type is out of model,
the decimal values the source manipulates being exact in it. -/
structure Dec where
  m : Int
  e : Nat
deriving DecidableEq, Repr

/-- Product of a decimal with an integer, modelling the source's
multiplication of the converted rate by the converted quantity. -/
def Dec.mulInt (d : Dec) (k : Int) : Dec :=
  ⟨d.m * k, d.e⟩

/-- A JSON scalar value as produced by decoding the AI reply. -/
inductive PyVal where
  | str (s : String)
  | num (d : Dec)
  | bool (b : Bool)
  | null
deriving DecidableEq, Repr

/-- Python truthiness of a scalar: the empty string, zero, False and
None are falsy, everything else is truthy. -/
def PyVal.truthy : PyVal → Bool
  | .str s => s != ""
  | .num d => d.m != 0
  | .bool b => b
  | .null => false

/-- Truthiness of a dictionary lookup: a missing key counts as falsy,
modelling the source's test that a field is absent or has a falsy
value. -/
def truthyOpt : Option PyVal → Bool
  | none => false
  | some v => v.truthy

/-- Numeric value of a list of decimal digit characters. -/
def digitsVal (cs : List Char) : Nat :=
  cs.foldl (fun a c => a * 10 + (c.toNat - 48)) 0

/-- Every character of the list is a decimal digit. -/
def allDigits (cs : List Char) : Bool :=
  cs.all (fun c => c.isDigit)

/-- Surrounding whitespace removal on a character list, modelling the
stripping Python number conversion performs. -/
def listTrim (cs : List Char) : List Char :=
  ((cs.dropWhile (fun c => c.isWhitespace)).reverse.dropWhile
    (fun c => c.isWhitespace)).reverse

/-- Model of Python int(s) on a string: optional surrounding
whitespace, an optional sign and at least one decimal digit.
Underscores, other bases and non-decimal forms are out of model and
fail. -/
def pyParseInt (s : String) : Option Int :=
  match listTrim s.toList with
  | '-' :: rest =>
      if !rest.isEmpty && allDigits rest then some (-(digitsVal rest : Int)) else none
  | '+' :: rest =>
      if !rest.isEmpty && allDigits rest then some (digitsVal rest : Int) else none
  | cs =>
      if !cs.isEmpty && allDigits cs then some (digitsVal cs : Int) else none

/-- Unsigned decimal literal: digit runs with an optional decimal
point, at least one digit overall. -/
def parseUnsignedDec (cs : List Char) : Option Dec :=
  let a := cs.takeWhile (fun c => c != '.')
  match cs.dropWhile (fun c => c != '.') with
  | [] => if !a.isEmpty && allDigits a then some ⟨(digitsVal a : Int), 0⟩ else none
  | _ :: frac =>
      if allDigits a && allDigits frac && (!a.isEmpty || !frac.isEmpty) then
        some ⟨(digitsVal a * 10 ^ frac.length + digitsVal frac : Nat), frac.length⟩
      else none

/-- Model of Python float(s) on a string: optional surrounding
whitespace, optional sign, plain decimal literal.  Exponents, inf and
nan are out of model and fail. -/
def pyParseFloat (s : String) : Option Dec :=
  match listTrim s.toList with
  | '-' :: rest => (parseUnsignedDec rest).map (fun d => ⟨-d.m, d.e⟩)
  | '+' :: rest => parseUnsignedDec rest
  | cs => parseUnsignedDec cs

/-- Model of Python float(v) on a scalar: strings are parsed, numbers
returned, booleans become 0 or 1; None raises a TypeError which the
outer handler of parse_command_with_ai converts to a `None` result, so
it is modelled as `none`. -/
def pyFloat : PyVal → Option Dec
  | .str s => pyParseFloat s
  | .num d => some d
  | .bool b => some (if b then ⟨1, 0⟩ else ⟨0, 0⟩)
  | .null => none

/-- Truncation toward zero of a decimal, as Python int conversion of a
float. -/
def decTrunc (d : Dec) : Int :=
  let den : Int := (10 : Int) ^ d.e
  if d.m < 0 then -((-d.m).fdiv den) else d.m.fdiv den

/-- Model of Python int(v) on a scalar: strings are parsed as decimal
integers, numbers truncate toward zero, booleans become 0 or 1, None
raises (modelled as `none`, as for `pyFloat`). -/
def pyInt : PyVal → Option Int
  | .str s => pyParseInt s
  | .num d => some (decTrunc d)
  | .bool b => some (if b then 1 else 0)
  | .null => none

/-- Decimal digits of a natural number, least significant first, with a
fuel argument bounding the recursion. -/
def toDigitsRev : Nat → Nat → List Char
  | 0, _ => []
  | _ + 1, 0 => []
  | fuel + 1, n + 1 =>
      Char.ofNat (48 + (n + 1) % 10) :: toDigitsRev fuel ((n + 1) / 10)

/-- Model of Python str(n) on a natural number. -/
def natRepr (n : Nat) : String :=
  if n = 0 then "0" else String.mk (toDigitsRev n n).reverse

/-- Model of Python str(n) on an integer, as applied to the converted
quantity. -/
def intRepr (n : Int) : String :=
  if n < 0 then "-" ++ natRepr n.natAbs else natRepr n.natAbs

/-- Insertion of a comma after every three characters of a reversed
digit list, the thousands grouping of the comma format flag. -/
def commaGroupRev : List Char → List Char
  | a :: b :: c :: d :: rest => a :: b :: c :: ',' :: commaGroupRev (d :: rest)
  | cs => cs

/-- Thousands grouping of a digit string. -/
def commaGroup (s : String) : String :=
  String.mk (commaGroupRev s.toList.reverse).reverse

/-- Rounding of a fraction with positive denominator to the nearest
integer with ties to even, the rounding applied when formatting with
two decimal places. -/
def roundHalfEven (num den : Int) : Int :=
  let f := num.fdiv den
  let r := num - f * den
  if 2 * r < den then f
  else if den < 2 * r then f + 1
  else if f % 2 = 0 then f else f + 1

/-- Model of the source's currency rendering: a rupee sign followed by
the value rounded to two decimals with thousands separators. -/
def formatINR (d : Dec) : String :=
  let c := roundHalfEven (d.m * 100) ((10 : Int) ^ d.e)
  let sign := if c < 0 then "-" else ""
  let whole := c.natAbs / 100
  let cents := c.natAbs % 100
  "₹" ++ sign ++ commaGroup (natRepr whole) ++ "." ++
    (if cents < 10 then "0" ++ natRepr cents else natRepr cents)

/-- The decoded JSON object returned by the AI, restricted to the keys
that parse_command_with_ai reads; `none` models an absent key, while
`some .null` models a key present with value null. -/
structure ParsedContext where
  q_no : Option PyVal := none
  date : Option PyVal := none
  company_name : Option PyVal := none
  customer_name : Option PyVal := none
  product : Option PyVal := none
  quantity : Option PyVal := none
  rate : Option PyVal := none
  units : Option PyVal := none
  hsn : Option PyVal := none
  email : Option PyVal := none
deriving DecidableEq, Repr

/-- The context dictionary as returned by parse_command_with_ai on
success: the decoded fields after validation, numeric conversion and
formatting, and defaulting of the optional fields. -/
structure QuoteResult where
  q_no : PyVal
  date : PyVal
  company_name : PyVal
  customer_name : PyVal
  product : PyVal
  quantity : String
  rate : PyVal
  units : PyVal
  hsn : PyVal
  email : PyVal
  rate_formatted : String
  total_formatted : String
deriving DecidableEq, Repr

/-- The required-field loop of parse_command_with_ai: each of product,
customer_name, email, rate and quantity must be present with a truthy
value. -/
def requiredOk (ctx : ParsedContext) : Bool :=
  truthyOpt ctx.product && truthyOpt ctx.customer_name && truthyOpt ctx.email &&
    truthyOpt ctx.rate && truthyOpt ctx.quantity

/-- Body of parse_command_with_ai after JSON decoding: required-field
validation, rate and quantity conversion with formatting, and
defaulting of date, company_name, hsn, q_no and units.  The `today`
argument is the rendering of the current date.  Every failure path of
the source returns None or raises into the enclosing try/except, which
returns None; both are `none` here. -/
def parse_context (ctx : ParsedContext) (today : String) : Option QuoteResult :=
  if requiredOk ctx then
    match pyFloat (ctx.rate.getD .null), pyInt (ctx.quantity.getD .null) with
    | some price, some qty =>
        some {
          q_no := ctx.q_no.getD (.str "")
          date := if truthyOpt ctx.date then ctx.date.getD .null else .str today
          company_name := ctx.company_name.getD (.str "")
          customer_name := ctx.customer_name.getD .null
          product := ctx.product.getD .null
          quantity := intRepr qty
          rate := ctx.rate.getD .null
          units := if truthyOpt ctx.units then ctx.units.getD .null else .str "Nos"
          hsn := ctx.hsn.getD (.str "")
          email := ctx.email.getD .null
          rate_formatted := formatINR price
          total_formatted := formatINR (price.mulInt qty)
        }
    | _, _ => none
  else none

/-- Model of parse_command_with_ai.  The network call to the generative
model is external I/O: its reply, after stripping and JSON decoding,
enters as `reply`, with `none` standing for a reply that fails to
decode.  `text` is the user command; it feeds only the prompt sent to
the external model, not the computation of the result.  `today` is the
current date string used for the date default. -/
def parse_command_with_ai (_text : String) (reply : Option ParsedContext)
    (today : String) : Option QuoteResult :=
  match reply with
  | none => none
  | some ctx => parse_context ctx today

/-- Query arguments of a GET verification request; absent keys are
`none`, mirroring the dictionary lookups of the source. -/
structure GetArgs where
  hub_mode : Option String := none
  hub_verify_token : Option String := none
  hub_challenge : Option String := none
deriving DecidableEq, Repr

/-- Truthiness of an optional string, as tested on query values. -/
def truthyStr : Option String → Bool
  | none => false
  | some s => s != ""

/-- GET branch of handle_webhook, the verification handshake.  The
`verify_token` argument is the configured META_VERIFY_TOKEN, `none`
when the environment variable is unset.  Returns the HTTP status and
the response body, the challenge echo on success. -/
def handle_webhook_get (verify_token : Option String) (args : GetArgs) :
    Nat × Option String :=
  if args.hub_mode = some "subscribe" ∧ truthyStr args.hub_verify_token = true then
    if args.hub_verify_token = verify_token then
      (200, args.hub_challenge)
    else
      (403, some "Verification token mismatch")
  else
    (400, some "Failed verification")

/-- A message object of a webhook POST payload.  `sender` models the
value at key from and `textBody` the value at the nested text body key;
`none` models an absent key, whose KeyError the source catches and
answers with status 200. -/
structure MessageObj where
  msgType : Option String := none
  sender : Option String := none
  textBody : Option String := none
deriving DecidableEq, Repr

/-- A status object of a webhook POST payload. -/
structure StatusObj where
  status : Option String := none
  id : Option String := none
deriving DecidableEq, Repr

/-- The value object of a change; missing message or status lists are
modelled as empty, since the source treats absence and emptiness
alike. -/
structure ChangeValue where
  messages : List MessageObj := []
  statuses : List StatusObj := []
deriving DecidableEq, Repr

/-- A change of an entry. -/
structure Change where
  value : Option ChangeValue := none
deriving DecidableEq, Repr

/-- An entry of a decoded POST body. -/
structure Entry where
  changes : List Change := []
deriving DecidableEq, Repr

/-- A decoded POST body; an empty entry list models both a missing and
an empty entry key, which the source treats alike. -/
structure WebhookData where
  entry : List Entry := []
deriving DecidableEq, Repr

/-- An incoming POST request: either a body that fails JSON decoding or
is not an object, raising inside the try block, or a decoded
payload. -/
inductive PostPayload where
  | malformed
  | payload (d : WebhookData)
deriving DecidableEq, Repr

/-- POST branch of handle_webhook.  The downstream collaborators are
explicit function parameters: `parse` is the extractor applied to the
message text, already closed over the AI reply and the date, `makeHtml`
is create_quotation_html and `sendEmail` is send_email_quote; WhatsApp
replies are fire-and-forget and do not affect the response.  Returns
the HTTP status code. -/
def handle_webhook_post (p : PostPayload) (parse : String → Option QuoteResult)
    (makeHtml : QuoteResult → String) (sendEmail : QuoteResult → String → Bool) :
    Nat :=
  match p with
  | .malformed => 200
  | .payload d =>
    match d.entry with
    | [] => 200
    | e :: _ =>
      match e.changes with
      | [] => 200
      | ch :: _ =>
        match ch.value with
        | none => 200
        | some v =>
          match v.messages with
          | m :: _ =>
            if m.msgType = some "text" then
              match m.sender, m.textBody with
              | some phone, some text =>
                if text != "" && phone != "" then
                  match parse text with
                  | none => 200
                  | some ctx =>
                    if makeHtml ctx = "" then 200
                    else
                      let _ := sendEmail ctx (makeHtml ctx)
                      200
                else 200
              | _, _ => 200
            else 200
          | [] =>
            match v.statuses with
            | _ :: _ => 200
            | [] => 200

/-! Concrete contexts used to exercise the extractor. -/

/-- A fully populated decoded reply, as for the canonical command. -/
def ctxFull : ParsedContext :=
  { q_no := some (.str "110"), company_name := some (.str "Raj Pvt Ltd"),
    customer_name := some (.str "Raju"), product := some (.str "3 inch SS Pipe Sch 40"),
    quantity := some (.str "500"), rate := some (.str "600"),
    units := some (.str "Pcs"), hsn := some (.str "7304"),
    email := some (.str "raju@example.com") }

/-- The result of extraction on `ctxFull`. -/
def resFull : QuoteResult :=
  { q_no := .str "110", date := .str "October 12, 2025",
    company_name := .str "Raj Pvt Ltd", customer_name := .str "Raju",
    product := .str "3 inch SS Pipe Sch 40", quantity := "500",
    rate := .str "600", units := .str "Pcs", hsn := .str "7304",
    email := .str "raju@example.com",
    rate_formatted := "₹600.00", total_formatted := "₹300,000.00" }

/-- Same reply with the units key absent. -/
def ctxNoUnits : ParsedContext := { ctxFull with units := none }

/-- Same reply with a lowercase variant unit token. -/
def ctxLowerNos : ParsedContext := { ctxFull with units := some (.str "nos") }

/-- A 121-character product description. -/
def longProduct : String := String.mk (List.replicate 121 'x')

/-- Same reply with the 121-character product description. -/
def ctxLongProduct : ParsedContext := { ctxFull with product := some (.str longProduct) }

/-- Same reply with a fractional rate string. -/
def ctxFracRate : ParsedContext := { ctxFull with rate := some (.str "600.5") }

/-- Same reply with a rate that fails numeric conversion. -/
def ctxBadRate : ParsedContext := { ctxFull with rate := some (.str "abc") }

/-- A digits-only string: non-empty and all decimal digits. -/
def isDigitsOnly (s : String) : Bool := !s.isEmpty && allDigits s.toList

/-! Helper lemmas. -/

/-- One unfolding of the digit expansion: a positive input with fuel
left yields at least one digit. -/
theorem toDigitsRev_succ_ne_nil (fuel n : Nat) : toDigitsRev (fuel + 1) (n + 1) ≠ [] := by
  simp [toDigitsRev]

/-- The decimal rendering of a natural number is never empty. -/
theorem natRepr_ne_empty (n : Nat) : natRepr n ≠ "" := by
  match n with
  | 0 => decide
  | m + 1 =>
    intro h
    rw [natRepr] at h
    simp only [Nat.succ_ne_zero, if_neg] at h
    have hd := congrArg String.data h
    simp [toDigitsRev] at hd

/-- The decimal rendering of an integer is never empty. -/
theorem intRepr_ne_empty (n : Int) : intRepr n ≠ "" := by
  rw [intRepr]
  split
  · intro h
    have hd := congrArg String.data h
    simp [String.data_append] at hd
  · exact natRepr_ne_empty _

/-- A truthy lookup is a present value, and the default-extracting view
of it is truthy. -/
theorem truthyOpt_getD (o : Option PyVal) (h : truthyOpt o = true) :
    (o.getD .null).truthy = true := by
  cases o with
  | none => simp [truthyOpt] at h
  | some v => simpa [truthyOpt] using h

/-! Claim theorems. -/

/-- Claim C1: extraction returns either a context in which every
required field — customer name, quantity, rate, email — is non-empty,
or None; when any of these fields is absent or empty the result is
None, so no partially filled record reaches the caller. -/
theorem c1_required_fields_total (ctx : ParsedContext) (today : String) :
    (∀ r, parse_context ctx today = some r →
      r.customer_name.truthy = true ∧ r.quantity ≠ "" ∧
      r.rate.truthy = true ∧ r.email.truthy = true) ∧
    ((truthyOpt ctx.customer_name = false ∨ truthyOpt ctx.quantity = false ∨
      truthyOpt ctx.rate = false ∨ truthyOpt ctx.email = false) →
      parse_context ctx today = none) := by
  constructor
  · intro r hr
    rw [parse_context] at hr
    split at hr
    case isTrue hreq =>
      split at hr
      case h_1 price qty hp hq =>
        rw [requiredOk] at hreq
        simp only [Bool.and_eq_true] at hreq
        cases hr
        refine ⟨truthyOpt_getD _ hreq.1.1.1.2, intRepr_ne_empty qty,
          truthyOpt_getD _ hreq.1.2, truthyOpt_getD _ hreq.1.1.2⟩
      case h_2 => exact absurd hr (by simp)
    case isFalse => exact absurd hr (by simp)
  · intro h
    have hreq : requiredOk ctx = false := by
      rw [requiredOk]
      rcases h with h | h | h | h <;> simp [h]
    rw [parse_context, hreq]
    simp

/-- Witness for C1 at a concrete fully populated context. -/
theorem c1_required_fields_total_witness :
    resFull.customer_name.truthy = true ∧ resFull.quantity ≠ "" ∧
    resFull.rate.truthy = true ∧ resFull.email.truthy = true :=
  (c1_required_fields_total ctxFull "October 12, 2025").1 resFull (by decide)

/-- Claim C2 counterexample: a successful extraction with a quantity
found and no unit token yields units "Nos", not "Pcs". -/
theorem c2_default_unit_cex :
    (parse_context ctxNoUnits "October 12, 2025").map QuoteResult.units
      = some (PyVal.str "Nos") ∧ PyVal.str "Nos" ≠ PyVal.str "Pcs" := by
  decide

/-- Claim C2 as amended: when the units field is absent or empty and
extraction succeeds, units defaults to "Nos"; an unknown non-empty unit
token is kept as extracted. -/
theorem c2_default_unit_amended (ctx : ParsedContext) (today : String) (r : QuoteResult)
    (hu : truthyOpt ctx.units = false) (hr : parse_context ctx today = some r) :
    r.units = PyVal.str "Nos" := by
  rw [parse_context] at hr
  split at hr
  · split at hr
    · cases hr
      simp [hu]
    · exact absurd hr (by simp)
  · exact absurd hr (by simp)

/-- Witness for the amended C2: units default at a concrete context
with the units key absent. -/
theorem c2_default_unit_amended_witness :
    ({ resFull with units := .str "Nos" } : QuoteResult).units = PyVal.str "Nos" :=
  c2_default_unit_amended ctxNoUnits "October 12, 2025" _ (by decide) (by decide)

/-- Claim C3 counterexample: a successful extraction returns a
121-character product description untruncated. -/
theorem c3_truncation_cex :
    (parse_context ctxLongProduct "October 12, 2025").map QuoteResult.product
      = some (PyVal.str longProduct) ∧ 120 < longProduct.length := by
  decide

/-- Claim C3 as amended: the product description is returned exactly as
extracted; no truncation is applied at any length. -/
theorem c3_product_verbatim (ctx : ParsedContext) (today : String) (r : QuoteResult)
    (hr : parse_context ctx today = some r) : ctx.product = some r.product := by
  rw [parse_context] at hr
  split at hr
  case isTrue hreq =>
    split at hr
    case h_1 price qty hp hq =>
      rw [requiredOk] at hreq
      simp only [Bool.and_eq_true] at hreq
      have hp := hreq.1.1.1.1
      cases hr
      cases hpv : ctx.product with
      | none => rw [hpv] at hp; simp [truthyOpt] at hp
      | some v => simp [hpv]
    case h_2 => exact absurd hr (by simp)
  case isFalse => exact absurd hr (by simp)

/-- Witness for the amended C3 at the 121-character product. -/
theorem c3_product_verbatim_witness :
    ctxLongProduct.product
      = some ({ resFull with product := .str longProduct } : QuoteResult).product :=
  c3_product_verbatim ctxLongProduct "October 12, 2025" _ (by decide)

/-- Claim C4 counterexample: the known variant token "nos" is not
normalized; the result keeps "nos" instead of the canonical "Pcs". -/
theorem c4_normalization_cex :
    (parse_context ctxLowerNos "October 12, 2025").map QuoteResult.units
      = some (PyVal.str "nos") ∧ PyVal.str "nos" ≠ PyVal.str "Pcs" := by
  decide

/-- Claim C4 as amended: no unit normalization is performed; any
non-empty unit value is returned exactly as extracted. -/
theorem c4_units_verbatim (ctx : ParsedContext) (today : String) (r : QuoteResult)
    (v : PyVal) (hu : ctx.units = some v) (hv : v.truthy = true)
    (hr : parse_context ctx today = some r) : r.units = v := by
  rw [parse_context] at hr
  split at hr
  · split at hr
    · cases hr
      simp [hu, truthyOpt, hv]
    · exact absurd hr (by simp)
  · exact absurd hr (by simp)

/-- Witness for the amended C4 at the lowercase token "nos". -/
theorem c4_units_verbatim_witness :
    ({ resFull with units := .str "nos" } : QuoteResult).units = PyVal.str "nos" :=
  c4_units_verbatim ctxLowerNos "October 12, 2025" _ (PyVal.str "nos")
    (by decide) (by decide) (by decide)

/-- Claim C5: every POST request to the webhook — malformed JSON,
unrecognized structure, non-text message type, status update, failed
extraction, failed rendering or failed e-mail delivery — is answered
with an HTTP 200 acknowledgment. -/
theorem c5_post_always_200 (p : PostPayload) (parse : String → Option QuoteResult)
    (makeHtml : QuoteResult → String) (sendEmail : QuoteResult → String → Bool) :
    handle_webhook_post p parse makeHtml sendEmail = 200 := by
  unfold handle_webhook_post
  repeat' split
  all_goals rfl

/-- Claim C6 counterexample: extraction is not a function of the input
text alone — the same text with two different replies from the external
generative model yields different results. -/
theorem c6_purity_cex :
    parse_command_with_ai "quote for Raju, 500 pcs SS pipe at 600, raju@example.com"
        none "October 12, 2025"
      ≠ parse_command_with_ai "quote for Raju, 500 pcs SS pipe at 600, raju@example.com"
        (some ctxFull) "October 12, 2025" := by
  decide

/-- Claim C6 as amended: extraction is deterministic in the pair of the
decoded external AI reply and the current date, and its result does not
depend on the input text at all; the text only feeds the prompt of the
external network call, which is the sole source of nondeterminism and
side effects. -/
theorem c6_determinism_amended (t1 t2 : String) (reply : Option ParsedContext)
    (today : String) :
    parse_command_with_ai t1 reply today = parse_command_with_ai t2 reply today := rfl

/-- Claim C7: extraction reports failure by returning None rather than
raising: a reply that fails JSON decoding yields None (the decoding
exception is caught by the enclosing handler), a missing or empty
required field yields None, and a rate or quantity that fails numeric
conversion yields None (the ValueError is caught). -/
theorem c7_failure_is_none (text : String) (reply : Option ParsedContext) (today : String) :
    (reply = none → parse_command_with_ai text reply today = none) ∧
    (∀ ctx, reply = some ctx → requiredOk ctx = false →
        parse_command_with_ai text reply today = none) ∧
    (∀ ctx, reply = some ctx →
        (pyFloat (ctx.rate.getD .null) = none ∨ pyInt (ctx.quantity.getD .null) = none) →
        parse_command_with_ai text reply today = none) := by
  refine ⟨?_, ?_, ?_⟩
  · intro h
    rw [h, parse_command_with_ai]
  · intro ctx h hreq
    rw [h, parse_command_with_ai, parse_context, hreq]
    simp
  · intro ctx h hnum
    rw [h, parse_command_with_ai, parse_context]
    split
    · split
      case h_1 price qty hp hq =>
        rcases hnum with hn | hn
        · rw [hn] at hp; exact absurd hp (by simp)
        · rw [hn] at hq; exact absurd hq (by simp)
      case h_2 => rfl
    · rfl

/-- Witness for C7 at an undecodable reply. -/
theorem c7_failure_is_none_witness :
    parse_command_with_ai "hello there" none "October 12, 2025" = none :=
  (c7_failure_is_none "hello there" none "October 12, 2025").1 rfl

/-- Claim C8 counterexample: a successful extraction can return a rate
that is not a digits-only string — the rate "600.5" passes float
conversion and is stored verbatim. -/
theorem c8_digits_only_cex :
    (parse_context ctxFracRate "October 12, 2025").map QuoteResult.rate
      = some (PyVal.str "600.5") ∧ isDigitsOnly "600.5" = false := by
  decide

/-- Claim C8 as amended: on success the quantity field is the decimal
string of the integer obtained by Python int conversion, and the rate
field is any value that passed Python float conversion, stored exactly
as extracted — neither is guaranteed to be a digits-only string. -/
theorem c8_number_fields_amended (ctx : ParsedContext) (today : String) (r : QuoteResult)
    (hr : parse_context ctx today = some r) :
    (∃ n : Int, pyInt (ctx.quantity.getD .null) = some n ∧ r.quantity = intRepr n) ∧
    (∃ d : Dec, pyFloat (ctx.rate.getD .null) = some d) ∧ ctx.rate = some r.rate := by
  rw [parse_context] at hr
  split at hr
  case isTrue hreq =>
    split at hr
    case h_1 price qty hp hq =>
      rw [requiredOk] at hreq
      simp only [Bool.and_eq_true] at hreq
      have hrt := hreq.1.2
      cases hr
      refine ⟨⟨qty, hq, rfl⟩, ⟨price, hp⟩, ?_⟩
      cases hrv : ctx.rate with
      | none => rw [hrv] at hrt; simp [truthyOpt] at hrt
      | some v => simp [hrv]
    case h_2 => exact absurd hr (by simp)
  case isFalse => exact absurd hr (by simp)

/-- The result of extraction on `ctxFracRate`. -/
def resFracRate : QuoteResult :=
  { resFull with
      rate := .str "600.5"
      rate_formatted := "₹600.50"
      total_formatted := "₹300,250.00" }

/-- Witness for the amended C8 at the fractional rate "600.5". -/
theorem c8_number_fields_amended_witness :
    (∃ n : Int, pyInt (ctxFracRate.quantity.getD .null) = some n ∧
        resFracRate.quantity = intRepr n) ∧
    (∃ d : Dec, pyFloat (ctxFracRate.rate.getD .null) = some d) ∧
    ctxFracRate.rate = some resFracRate.rate :=
  c8_number_fields_amended ctxFracRate "October 12, 2025" resFracRate (by decide)

/-- Claim C9: on success the formatted rate is the currency rendering
of the float conversion of rate, the formatted total is the currency
rendering of that value multiplied by the int conversion of quantity,
and the quantity field is replaced by the decimal string of its integer
value; when rate or quantity fails numeric conversion the result is
None. -/
theorem c9_totals (ctx : ParsedContext) (today : String) :
    (∀ r, parse_context ctx today = some r →
      ∃ d n, pyFloat (ctx.rate.getD .null) = some d ∧
        pyInt (ctx.quantity.getD .null) = some n ∧
        r.rate_formatted = formatINR d ∧
        r.total_formatted = formatINR (d.mulInt n) ∧
        r.quantity = intRepr n) ∧
    ((pyFloat (ctx.rate.getD .null) = none ∨ pyInt (ctx.quantity.getD .null) = none) →
      parse_context ctx today = none) := by
  constructor
  · intro r hr
    rw [parse_context] at hr
    split at hr
    · split at hr
      case h_1 price qty hp hq =>
        cases hr
        exact ⟨price, qty, hp, hq, rfl, rfl, rfl⟩
      case h_2 => exact absurd hr (by simp)
    · exact absurd hr (by simp)
  · intro hnum
    rw [parse_context]
    split
    · split
      case h_1 price qty hp hq =>
        rcases hnum with hn | hn
        · rw [hn] at hp; exact absurd hp (by simp)
        · rw [hn] at hq; exact absurd hq (by simp)
      case h_2 => rfl
    · rfl

/-- Witness for C9: the success side at the canonical context, the
failure side at a rate that fails float conversion. -/
theorem c9_totals_witness :
    (∃ d n, pyFloat (ctxFull.rate.getD .null) = some d ∧
      pyInt (ctxFull.quantity.getD .null) = some n ∧
      resFull.rate_formatted = formatINR d ∧
      resFull.total_formatted = formatINR (d.mulInt n) ∧
      resFull.quantity = intRepr n) ∧
    parse_context ctxBadRate "October 12, 2025" = none :=
  ⟨(c9_totals ctxFull "October 12, 2025").1 resFull (by decide),
   (c9_totals ctxBadRate "October 12, 2025").2 (Or.inl (by decide))⟩

/-- Query arguments of the C10 counterexample: hub.mode present but not
subscribe, hub.verify_token present and mismatched. -/
def argsWrongMode : GetArgs :=
  { hub_mode := some "unsubscribe", hub_verify_token := some "wrong",
    hub_challenge := some "12345" }

/-- Query arguments of a successful verification. -/
def argsOk : GetArgs :=
  { hub_mode := some "subscribe", hub_verify_token := some "secret",
    hub_challenge := some "12345" }

/-- Claim C10 counterexample: with hub.mode present but different from
subscribe and a present, non-empty, mismatched hub.verify_token, the
handler returns 400 — not the 403 the claim assigns to every present
but mismatched token. -/
theorem c10_get_cex :
    argsWrongMode.hub_verify_token = some "wrong" ∧
    (some "wrong" : Option String) ≠ some "secret" ∧
    (handle_webhook_get (some "secret") argsWrongMode).1 = 400 := by
  decide

/-- Claim C10 as amended: the GET handler returns 200 with the
hub.challenge body exactly when hub.mode equals subscribe and
hub.verify_token is present, non-empty and equal to the configured
token; 403 exactly when hub.mode equals subscribe and the token is
present and non-empty but differs from the configured token; and 400
exactly when hub.mode is not subscribe or the token is missing or
empty. -/
theorem c10_get_amended (cfg : Option String) (args : GetArgs) :
    ((handle_webhook_get cfg args).1 = 200 ↔
      args.hub_mode = some "subscribe" ∧ truthyStr args.hub_verify_token = true ∧
      args.hub_verify_token = cfg) ∧
    ((handle_webhook_get cfg args).1 = 200 →
      (handle_webhook_get cfg args).2 = args.hub_challenge) ∧
    ((handle_webhook_get cfg args).1 = 403 ↔
      args.hub_mode = some "subscribe" ∧ truthyStr args.hub_verify_token = true ∧
      args.hub_verify_token ≠ cfg) ∧
    ((handle_webhook_get cfg args).1 = 400 ↔
      ¬(args.hub_mode = some "subscribe" ∧ truthyStr args.hub_verify_token = true)) := by
  rw [handle_webhook_get]
  by_cases h1 : args.hub_mode = some "subscribe" ∧ truthyStr args.hub_verify_token = true
  · rw [if_pos h1]
    obtain ⟨h1a, h1b⟩ := h1
    by_cases h2 : args.hub_verify_token = cfg
    · rw [if_pos h2]
      rw [h2] at h1b
      simp [h1a, h1b, h2]
    · rw [if_neg h2]
      simp [h1a, h1b, h2]
  · rw [if_neg h1]
    refine ⟨?_, ?_, ?_, ?_⟩
    · constructor
      · intro h; exact absurd h (by decide)
      · intro h; exact absurd ⟨h.1, h.2.1⟩ h1
    · intro h; exact absurd h (by decide)
    · constructor
      · intro h; exact absurd h (by decide)
      · intro h; exact absurd ⟨h.1, h.2.1⟩ h1
    · exact ⟨fun _ => h1, fun _ => rfl⟩

/-- Witness for the amended C10: a concrete matching handshake is
answered with 200. -/
theorem c10_get_amended_witness :
    (handle_webhook_get (some "secret") argsOk).1 = 200 :=
  ((c10_get_amended (some "secret") argsOk).1).mpr (by decide)
